import Mathlib

/-!
Verification development for `finder.py` (MestreLion/minecraft-finder).

The script is embedded shallowly:
* Python integers are `Int`, Python numeric values reaching `int()` are exact
  rationals `ℚ` (every coordinate value the script handles is exact there),
  strings are `String`.
* `a >> n` on a Python int is an arithmetic right shift, embedded as `>>>` on
  `Int` (Lean's `Int.shiftRight` is the same arithmetic shift).
* `a & 0xf` / `a & 0x1F` on a Python int, with an all-ones mask `2^n - 1`,
  equals Python's `a % 2^n` (non-negative remainder), embedded as `Int.emod`
  by `2^n`, which has exactly those semantics for a positive modulus.
* `int(q)` truncates toward zero, embedded as `Int.tdiv` of numerator by
  denominator.
* Python `str.lower()` on the ASCII identifiers involved is a per-character
  lowercasing, embedded over the string's character list.
* Exceptions are an explicit `Except` channel; the pymclevel collaborator
  calls are parameters describing their reported outcome.
-/

namespace Finder

/-- Python `s.lower()`: lowercase each character of the string. -/
def pyLower (s : String) : String :=
  String.mk (s.data.map Char.toLower)

/-- Python `int(q)` on an exact numeric value: truncation toward zero. -/
def pyInt (q : ℚ) : Int :=
  q.num.tdiv q.den

/-- Python `a >> n` on an int: arithmetic right shift. -/
def pyShr (a : Int) (n : Nat) : Int :=
  a >>> n

/-- Python `a & (2^n - 1)` on an int (the masks `0xf`, `0x1F` used by the
script): for an all-ones mask this is the non-negative remainder mod `2^n`. -/
def pyAndMask (a : Int) (n : Nat) : Int :=
  a % ((2 ^ n : Nat) : Int)

/-- Python class `Pos` (finder.py lines 227-275): an absolute position. The
constructor unpacks exactly three values `x, y, z`; Python numeric values are
embedded as exact rationals. -/
structure Pos where
  x : ℚ
  y : ℚ
  z : ℚ

/-- Method `Pos.chunkCoords` (lines 254-257): `(int(x) >> 4, int(z) >> 4)`. -/
def Pos.chunkCoords (p : Pos) : Int × Int :=
  (pyShr (pyInt p.x) 4, pyShr (pyInt p.z) 4)

/-- Method `Pos.chunkPos` (lines 259-263): `(int(x) & 0xf, int(z) & 0xf, int(y))`. -/
def Pos.chunkPos (p : Pos) : Int × Int × Int :=
  (pyAndMask (pyInt p.x) 4, pyAndMask (pyInt p.z) 4, pyInt p.y)

/-- Method `Pos.regionCoords` (lines 265-269): `(cx >> 5, cz >> 5)` on the
chunk coordinates. -/
def Pos.regionCoords (p : Pos) : Int × Int :=
  (pyShr p.chunkCoords.1 5, pyShr p.chunkCoords.2 5)

/-- Method `Pos.regionPos` (lines 271-275): `(cx & 0x1F, cz & 0x1F)` on the
chunk coordinates. -/
def Pos.regionPos (p : Pos) : Int × Int :=
  (pyAndMask p.chunkCoords.1 5, pyAndMask p.chunkCoords.2 5)

/-- The region coordinate of a chunk, the formula `(cx >> 5, cz >> 5)` used by
`Pos.regionCoords` (and realized for on-disk regions by
`chunkcoords`/`getRegionForChunk`, line 103). -/
def regionOfChunk (cx cz : Int) : Int × Int :=
  (pyShr cx 5, pyShr cz 5)

/-- The region-local chunk offset `(cx & 0x1F, cz & 0x1F)` computed by
`chunkcoords` (line 104) and by `Pos.regionPos`. -/
def regionOffsetOfChunk (cx cz : Int) : Int × Int :=
  (pyAndMask cx 5, pyAndMask cz 5)

section PyLemmas

/-- Truncation is the identity on integer-valued rationals. -/
theorem pyInt_intCast (a : Int) : pyInt (a : ℚ) = a := by
  simp [pyInt, Rat.num_intCast, Rat.den_intCast, Int.tdiv_one]

/-- The arithmetic right shift is floor division by `2^n`, stated through the
floor of the exact quotient. -/
theorem pyShr_eq_floor (a : Int) (n : Nat) :
    pyShr a n = ⌊(a : ℚ) / ((2 ^ n : Nat) : ℚ)⌋ := by
  rw [pyShr, Int.shiftRight_eq_div_pow, Rat.floor_intCast_div_natCast]

/-- The masked value is always in `[0, 2^n - 1]`. -/
theorem pyAndMask_bounds (a : Int) (n : Nat) :
    0 ≤ pyAndMask a n ∧ pyAndMask a n ≤ (2 ^ n : Nat) - 1 := by
  have hpos : (0 : Int) < ((2 ^ n : Nat) : Int) := by positivity
  unfold pyAndMask
  have h1 := Int.emod_nonneg a (ne_of_gt hpos)
  have h2 := Int.emod_lt_of_pos a hpos
  omega

end PyLemmas

/-- An entity record as consumed by the entity loop: its raw identifier, the
value stored under the `"id"` key. -/
structure EntityRec where
  id : String

/-- A chunk as consumed by the driver: the `Entities` collection the entity
loop iterates (line 353). -/
structure Chunk where
  Entities : List EntityRec

/-- The entity match test of `main` (line 354):
`entity["id"].value.lower() == args.entity.lower()`. -/
def entityMatches (entityId search : String) : Bool :=
  pyLower entityId == pyLower search

/-- One iteration of the entity loop (lines 353-361) on the running state
`(entityid, entitycount)`: a match stores the raw id and increments the
count; anything else leaves the state alone. The Villager pretty-printing
(lines 359-361) only logs and does not touch this state. -/
def entityStep (search : String) (st : String × Nat) (e : EntityRec) : String × Nat :=
  if entityMatches e.id search then (e.id, st.2 + 1) else st

/-- The whole entity scan (lines 350-362): state starts as
`(args.entity, 0)` and is folded through every entity of every chunk. -/
def entityScan (search : String) (chunks : List Chunk) : String × Nat :=
  chunks.foldl (fun st c => c.Entities.foldl (entityStep search) st) (search, 0)

/-- The summary output of the entity search: the single `log.info` call after
the loop (line 362) reports the pair `(entityid, entitycount)`, formatted
`"%s: %d"`. -/
def entitySummary (search : String) (chunks : List Chunk) : List (String × Nat) :=
  [entityScan search chunks]

/-- Modelled directly from the words of the spec, for comparison with
`entityMatches`: the spec's normalized identifier is lower-cased and
namespace-prefixed when no namespace is present. -/
def specNormalizedId (s : String) : String :=
  let l := pyLower s
  if l.data.contains ':' then l else String.mk ("minecraft:".data ++ l.data)

/-- Modelled directly from the words of the spec, for comparison with
`entityMatches`: an entity matches when its raw identifier equals the
normalized id, or its resolved display name equals the search name
case-insensitively. -/
def specEntityMatches (rawId search : String) (displayName : Option String) : Bool :=
  rawId == specNormalizedId search ||
    (match displayName with
     | some n => pyLower n == pyLower search
     | none => false)

/-- One voxel of a chunk's `Blocks` array, as enumerated by
`numpy.where(chunk.Blocks == args.block)` (line 369): chunk-local coordinates
and the block id stored there. -/
structure Voxel where
  xc : Nat
  zc : Nat
  y : Nat
  id : Nat

/-- The block branch of `main` (lines 364-373): `blockcount += 1` once per
voxel position whose block id equals the searched id. -/
def blockScan (blocks : List Voxel) (target : Nat) : Nat :=
  (blocks.filter (fun v => v.id == target)).foldl (fun acc _ => acc + 1) 0

/-- Modelled directly from the words of the spec, for comparison with
`blockScan`: an occurrence-based count per block-type record, one count per
distinct matching record rather than per voxel. -/
def specRecordCount (blocks : List Voxel) (target : Nat) : Nat :=
  ((blocks.map Voxel.id).dedup.filter (fun i => i == target)).length

/-- An opaque decoded player tag. -/
structure PlayerTag where
  token : Nat

/-- A loaded world as seen by `get_player`: its `LevelName` and the player
tags the collaborator can serve. -/
structure World where
  LevelName : String
  players : List (String × PlayerTag)

/-- Collaborator `world.getPlayerTag(name)`: the stored tag, or a
`PlayerNotFound` report embedded as `none`. -/
def World.getPlayerTag (w : World) (name : String) : Option PlayerTag :=
  (w.players.find? (fun kv => kv.1 == name)).map (fun kv => kv.2)

/-- Outcome reported by the collaborator calls inside `load_world`
(`pymclevel.fromFile` / `pymclevel.loadWorld`, lines 82-85): a loaded world,
an `IOError` carrying a message, or a `LoadingError`. -/
inductive LoadOutcome where
  | success (w : World)
  | ioError (msg : String)
  | loadingError

/-- The error channel of the driver: either the domain error
`PyMCLevelError` declared at line 23, or a generic collaborator exception
(present for contrast; the functions below never produce it). -/
inductive RaisedError where
  | pyMCLevelError (msg : String)
  | collaboratorError (msg : String)

/-- Function `load_world` (lines 77-89) on a string name: collaborator failures are
re-raised as `PyMCLevelError`. The `LoadingError` message in the source wraps
the name in single quotes; the quotes are omitted here. The
`isinstance(name, MCLevel)` early return concerns a non-string argument and
is outside this embedding. -/
def load_world (name : String) (outcome : LoadOutcome) : Except RaisedError World :=
  match outcome with
  | .success w => .ok w
  | .ioError e => .error (.pyMCLevelError e)
  | .loadingError => .error (.pyMCLevelError ("Not a valid Minecraft world: " ++ name))

/-- Function `get_player` (lines 92-98): a `None` player name defaults to `"Player"`;
a `PlayerNotFound` report from the collaborator is re-raised as
`PyMCLevelError`. The source message wraps the world name in single quotes;
the quotes are omitted here. -/
def get_player (w : World) (playername : Option String) : Except RaisedError PlayerTag :=
  let n := playername.getD "Player"
  match w.getPlayerTag n with
  | some t => .ok t
  | none =>
    .error (.pyMCLevelError ("Player not found in world " ++ w.LevelName ++ ": " ++ n))

/-- Exact-key lookup `self._nbt[name]` on a decoded compound, a `KeyError`
embedded as `none`: the first stored pair with exactly that key (keys are
unique in a compound). -/
def compoundGet {V : Type} (m : List (String × V)) (k : String) : Option V :=
  (m.find? (fun kv => kv.1 == k)).map (fun kv => kv.2)

/-- Method `NbtObject.__getattr__` (lines 161-175): try the exact key; on `KeyError`
scan the stored keys for the first case-insensitive match; raise
`AttributeError` (embedded as `none`) when the scan finds nothing. The
`_objectify` wrapping is the identity on the abstract stored value, and with
unique keys re-indexing by the found key returns that pair's value. -/
def getattrFallback {V : Type} (m : List (String × V)) (name : String) : Option V :=
  match compoundGet m name with
  | some v => some v
  | none => (m.find? (fun kv => pyLower kv.1 == pyLower name)).map (fun kv => kv.2)

section ScanLemmas

/-- A fold that only increments the accumulator adds the list length. -/
theorem foldl_incr {α : Type} (l : List α) (acc : Nat) :
    l.foldl (fun a _ => a + 1) acc = acc + l.length := by
  induction l generalizing acc with
  | nil => rfl
  | cons x xs ih =>
    rw [List.foldl_cons, ih, List.length_cons]
    omega

/-- The running count after folding the entity step is the initial count plus
the number of matching entities. -/
theorem entityStep_count (s : String) (l : List EntityRec) (st : String × Nat) :
    (l.foldl (entityStep s) st).2 = st.2 + l.countP (fun e => entityMatches e.id s) := by
  induction l generalizing st with
  | nil => simp
  | cons e l ih =>
    rw [List.foldl_cons, ih, List.countP_cons]
    cases h : entityMatches e.id s with
    | true => simp [entityStep, h]; omega
    | false => simp [entityStep, h]

/-- A fold of the entity step over entities none of which match leaves the
state untouched. -/
theorem entityStep_nomatch (s : String) (l : List EntityRec) :
    ∀ st : String × Nat, (∀ e ∈ l, entityMatches e.id s = false) →
      l.foldl (entityStep s) st = st := by
  induction l with
  | nil => intro st _; rfl
  | cons e l ih =>
    intro st h
    rw [List.foldl_cons, show entityStep s st e = st by
      simp [entityStep, h e (List.mem_cons_self e l)]]
    exact ih st (fun x hx => h x (List.mem_cons_of_mem e hx))

/-- The chunk-by-chunk scan is the fold of the entity step over the flattened
entity sequence. -/
theorem entityScan_eq_flat (s : String) (chunks : List Chunk) :
    entityScan s chunks = (chunks.flatMap Chunk.Entities).foldl (entityStep s) (s, 0) := by
  suffices h : ∀ (cs : List Chunk) (st : String × Nat),
      cs.foldl (fun st c => c.Entities.foldl (entityStep s) st) st =
        (cs.flatMap Chunk.Entities).foldl (entityStep s) st by
    exact h chunks (s, 0)
  intro cs
  induction cs with
  | nil => intro st; rfl
  | cons c cs ih =>
    intro st
    rw [List.foldl_cons, List.flatMap_cons, List.foldl_append, ih]

end ScanLemmas

/-- C1: for every integer x and z, including negative values, the chunk
coordinate computed by `Pos.chunkCoords` equals (floor(x/16), floor(z/16))
via arithmetic right shift; in particular x = -1, z = -1 gives (-1, -1). -/
theorem C1_chunkCoords_floor (a b : Int) (y : ℚ) :
    (Pos.mk (a : ℚ) y (b : ℚ)).chunkCoords = (⌊(a : ℚ) / 16⌋, ⌊(b : ℚ) / 16⌋) ∧
    (Pos.mk ((-1 : Int) : ℚ) y ((-1 : Int) : ℚ)).chunkCoords = (-1, -1) := by
  constructor
  · simp only [Pos.chunkCoords, pyInt_intCast, pyShr_eq_floor]
    norm_num
  · simp only [Pos.chunkCoords, pyInt_intCast]
    decide

/-- C2, counterexample: the spec predicate accepts raw id
"minecraft:villager" for the search "Villager" (by id equality against the
normalized id), but the code predicate at line 354 rejects it: the code
compares the lower-cased raw id with the lower-cased search string and never
adds a namespace. -/
theorem C2_counterexample :
    specEntityMatches "minecraft:villager" "Villager" none = true ∧
    entityMatches "minecraft:villager" "Villager" = false := by
  decide

/-- C2, amended: the entity search matches exactly when the raw identifier
equals the search identifier case-insensitively; no namespace normalization
and no display-name comparison take place, so "Villager" matches the raw id
"VILLAGER" but not "minecraft:villager". -/
theorem C2_amended_entityMatches (rawId search : String) :
    (entityMatches rawId search = true ↔ pyLower rawId = pyLower search) ∧
    entityMatches "VILLAGER" "Villager" = true ∧
    entityMatches "minecraft:villager" "Villager" = false := by
  refine ⟨?_, by decide, by decide⟩
  simp [entityMatches]

/-- C3: for every integer chunk coordinate, the region coordinate is the
arithmetic shift by 5 bits, that is floor division by 32, and the
region-local offset is the mask by 0x1F, always within [0, 31]; the same
formulas are the ones `Pos.regionCoords` and `Pos.regionPos` apply to the
chunk coordinates; chunk (17, -3) maps to region (0, -1) with offset
(17, 29). -/
theorem C3_region_of_chunk (cx cz : Int) :
    regionOfChunk cx cz = (⌊(cx : ℚ) / 32⌋, ⌊(cz : ℚ) / 32⌋) ∧
    (0 ≤ (regionOffsetOfChunk cx cz).1 ∧ (regionOffsetOfChunk cx cz).1 ≤ 31) ∧
    (0 ≤ (regionOffsetOfChunk cx cz).2 ∧ (regionOffsetOfChunk cx cz).2 ≤ 31) ∧
    (∀ p : Pos, p.regionCoords = regionOfChunk p.chunkCoords.1 p.chunkCoords.2 ∧
        p.regionPos = regionOffsetOfChunk p.chunkCoords.1 p.chunkCoords.2) ∧
    regionOfChunk 17 (-3) = (0, -1) ∧
    regionOffsetOfChunk 17 (-3) = (17, 29) := by
  refine ⟨?_, ?_, ?_, fun p => ⟨rfl, rfl⟩, by decide, by decide⟩
  · simp only [regionOfChunk, pyShr_eq_floor]
    norm_num
  · obtain ⟨h1, h2⟩ := pyAndMask_bounds cx 5
    norm_num at h2
    exact ⟨h1, h2⟩
  · obtain ⟨h1, h2⟩ := pyAndMask_bounds cz 5
    norm_num at h2
    exact ⟨h1, h2⟩

/-- C4, counterexample: on a chunk whose Blocks array holds the searched id
at two voxels (and one other id elsewhere), the code counts 2, one per
matching voxel, while the occurrence-per-record rule the claim asserts counts
1; the count is per-voxel, not per-record. -/
theorem C4_counterexample :
    blockScan [⟨0, 0, 0, 97⟩, ⟨1, 0, 0, 97⟩, ⟨2, 0, 0, 4⟩] 97 = 2 ∧
    specRecordCount [⟨0, 0, 0, 97⟩, ⟨1, 0, 0, 97⟩, ⟨2, 0, 0, 4⟩] 97 = 1 := by
  decide

/-- C4, amended: the block search count is a true per-voxel count: every
voxel position whose block id equals the searched id contributes exactly one
to the count. -/
theorem C4_amended_blockScan_per_voxel (blocks : List Voxel) (target : Nat) :
    blockScan blocks target = blocks.countP (fun v => v.id == target) := by
  rw [blockScan, foldl_incr, List.countP_eq_length_filter]
  exact Nat.zero_add _

/-- C5, counterexample: at the position (0, 1/2, 0), whose x and z are
integer-valued, the y component returned by `Pos.chunkPos` is int(1/2) = 0,
not the unmodified 1/2 the claim asserts. -/
theorem C5_counterexample :
    (Pos.mk ((0 : Int) : ℚ) (Rat.mk' 1 2) ((0 : Int) : ℚ)).x.den = 1 ∧
    (Pos.mk ((0 : Int) : ℚ) (Rat.mk' 1 2) ((0 : Int) : ℚ)).z.den = 1 ∧
    ((Pos.mk ((0 : Int) : ℚ) (Rat.mk' 1 2) ((0 : Int) : ℚ)).chunkPos.2.2 : ℚ) ≠
      (Pos.mk ((0 : Int) : ℚ) (Rat.mk' 1 2) ((0 : Int) : ℚ)).y := by
  decide

/-- C5, amended: for every position with integer-valued x and z the
chunk-local offset is (x & 0xF, z & 0xF, int(y)); the y component is
truncated toward zero by int(), and is carried through unmodified exactly
when y itself is integer-valued. -/
theorem C5_amended_chunkPos (p : Pos) (hx : p.x.den = 1) (hz : p.z.den = 1) :
    p.chunkPos = (pyAndMask p.x.num 4, pyAndMask p.z.num 4, pyInt p.y) ∧
    (p.y.den = 1 → ((p.chunkPos.2.2 : Int) : ℚ) = p.y) := by
  have hx' : pyInt p.x = p.x.num := by simp [pyInt, hx]
  have hz' : pyInt p.z = p.z.num := by simp [pyInt, hz]
  constructor
  · show (pyAndMask (pyInt p.x) 4, pyAndMask (pyInt p.z) 4, pyInt p.y) = _
    rw [hx', hz']
  · intro hy
    show ((pyInt p.y : Int) : ℚ) = p.y
    rw [show pyInt p.y = p.y.num by simp [pyInt, hy]]
    exact (Rat.den_eq_one_iff p.y).mp hy

/-- C5, witness: the amended statement evaluated at the integer position
(33, 7, -3): the offset is (1, 13, 7) and the integer y is unmodified. -/
theorem C5_amended_chunkPos_witness :
    (Pos.mk ((33 : Int) : ℚ) ((7 : Int) : ℚ) ((-3 : Int) : ℚ)).chunkPos = (1, 13, 7) ∧
    (((Pos.mk ((33 : Int) : ℚ) ((7 : Int) : ℚ) ((-3 : Int) : ℚ)).chunkPos.2.2 : Int) : ℚ) =
      ((7 : Int) : ℚ) := by
  have h := C5_amended_chunkPos (Pos.mk ((33 : Int) : ℚ) ((7 : Int) : ℚ) ((-3 : Int) : ℚ))
    (by simp [Rat.den_intCast]) (by simp [Rat.den_intCast])
  refine ⟨?_, ?_⟩
  · rw [h.1]
    simp only [Rat.num_intCast, pyInt_intCast]
    decide
  · rw [h.2 (by simp [Rat.den_intCast])]

/-- C6: during an entity search a matching entity increments the running
count by one and stores its raw identifier as the last-seen id, a
non-matching entity leaves the state unchanged, the final count is the total
number of matching entities over all chunks, and exactly one summary line is
emitted, carrying the final (id, count) pair. -/
theorem C6_entityScan_count_summary (search : String) (chunks : List Chunk) :
    (∀ (st : String × Nat) (e : EntityRec),
        (entityMatches e.id search = true → entityStep search st e = (e.id, st.2 + 1)) ∧
        (entityMatches e.id search = false → entityStep search st e = st)) ∧
    (entityScan search chunks).2 =
      (chunks.flatMap Chunk.Entities).countP (fun e => entityMatches e.id search) ∧
    entitySummary search chunks = [entityScan search chunks] := by
  refine ⟨fun st e => ⟨fun h => ?_, fun h => ?_⟩, ?_, rfl⟩
  · simp [entityStep, h]
  · simp [entityStep, h]
  · rw [entityScan_eq_flat, entityStep_count]
    exact Nat.zero_add _

/-- C6, witness: with search "Villager", the matching entity "villager" sets
the state to ("villager", 1), the non-matching entity "Creeper" leaves it
alone, and the scan of one chunk holding both counts 1. -/
theorem C6_entityScan_count_summary_witness :
    entityStep "Villager" ("Villager", 0) ⟨"villager"⟩ = ("villager", 1) ∧
    entityStep "Villager" ("villager", 1) ⟨"Creeper"⟩ = ("villager", 1) ∧
    (entityScan "Villager" [Chunk.mk [⟨"villager"⟩, ⟨"Creeper"⟩]]).2 = 1 := by
  have h := C6_entityScan_count_summary "Villager" [Chunk.mk [⟨"villager"⟩, ⟨"Creeper"⟩]]
  refine ⟨(h.1 ("Villager", 0) ⟨"villager"⟩).1 (by decide),
    (h.1 ("villager", 1) ⟨"Creeper"⟩).2 (by decide), ?_⟩
  rw [h.2.1]
  decide

/-- C7: the coordinate conversions of `Pos` are total: for every position,
each of the four conversions returns a result; there is no error branch. -/
theorem C7_coordinate_mapper_total (p : Pos) :
    (∃ cc : Int × Int, p.chunkCoords = cc) ∧
    (∃ cp : Int × Int × Int, p.chunkPos = cp) ∧
    (∃ rc : Int × Int, p.regionCoords = rc) ∧
    (∃ rp : Int × Int, p.regionPos = rp) :=
  ⟨⟨_, rfl⟩, ⟨_, rfl⟩, ⟨_, rfl⟩, ⟨_, rfl⟩⟩

/-- C8: every collaborator-reported world failure surfaces as the domain
error PyMCLevelError: an IOError or LoadingError during world loading, and a
PlayerNotFound during player lookup, are each re-raised as PyMCLevelError,
and no other error shape can come out of `load_world` or `get_player`. -/
theorem C8_collaborator_errors_domain :
    (∀ name msg : String,
        load_world name (.ioError msg) = .error (.pyMCLevelError msg)) ∧
    (∀ name : String, load_world name .loadingError =
        .error (.pyMCLevelError ("Not a valid Minecraft world: " ++ name))) ∧
    (∀ (w : World) (pn : Option String), w.getPlayerTag (pn.getD "Player") = none →
        get_player w pn = .error (.pyMCLevelError
          ("Player not found in world " ++ w.LevelName ++ ": " ++ pn.getD "Player"))) ∧
    (∀ (name : String) (o : LoadOutcome) (e : RaisedError),
        load_world name o = .error e → ∃ msg, e = .pyMCLevelError msg) ∧
    (∀ (w : World) (pn : Option String) (e : RaisedError),
        get_player w pn = .error e → ∃ msg, e = .pyMCLevelError msg) := by
  refine ⟨fun name msg => rfl, fun name => rfl, ?_, ?_, ?_⟩
  · intro w pn h
    simp [get_player, h]
  · intro name o e h
    cases o with
    | success w => simp [load_world] at h
    | ioError m =>
      simp [load_world] at h
      exact ⟨m, h.symm⟩
    | loadingError =>
      simp [load_world] at h
      exact ⟨"Not a valid Minecraft world: " ++ name, h.symm⟩
  · intro w pn e h
    cases hg : w.getPlayerTag (pn.getD "Player") with
    | some t => simp [get_player, hg] at h
    | none =>
      simp [get_player, hg] at h
      exact ⟨"Player not found in world " ++ w.LevelName ++ ": " ++ pn.getD "Player", h.symm⟩

/-- C8, witness: a missing player in an empty world is reported as the
domain error, and an IOError outcome of loading is a PyMCLevelError. -/
theorem C8_collaborator_errors_domain_witness :
    get_player (World.mk "w" []) none =
      .error (.pyMCLevelError ("Player not found in world " ++ "w" ++ ": " ++ "Player")) ∧
    (∃ msg, (RaisedError.pyMCLevelError "boom") = .pyMCLevelError msg) := by
  have h := C8_collaborator_errors_domain
  exact ⟨h.2.2.1 (World.mk "w" []) none rfl,
    h.2.2.2.1 "save" (.ioError "boom") _ (h.1 "save" "boom")⟩

/-- C9: dynamic attribute access on a compound wrapper returns the value
under the exact key when present, otherwise the first case-insensitive key
match, and returns the attribute-not-found outcome exactly when no stored key
matches case-insensitively. -/
theorem C9_getattr_fallback {V : Type} (m : List (String × V)) (name : String) :
    (∀ v : V, compoundGet m name = some v → getattrFallback m name = some v) ∧
    (compoundGet m name = none →
      getattrFallback m name =
        (m.find? (fun kv => pyLower kv.1 == pyLower name)).map (fun kv => kv.2)) ∧
    (getattrFallback m name = none ↔ ∀ kv ∈ m, pyLower kv.1 ≠ pyLower name) := by
  refine ⟨fun v h => by simp [getattrFallback, h], fun h => by simp [getattrFallback, h], ?_⟩
  cases hg : compoundGet m name with
  | some v =>
    have hsome : getattrFallback m name = some v := by simp [getattrFallback, hg]
    rw [hsome]
    refine iff_of_false (by simp) ?_
    intro hall
    unfold compoundGet at hg
    obtain ⟨kv, hfind, -⟩ := Option.map_eq_some'.mp hg
    have hkey : kv.1 = name := by simpa using List.find?_some hfind
    exact hall kv (List.mem_of_find?_eq_some hfind) (by rw [hkey])
  | none =>
    have hnone : getattrFallback m name =
        (m.find? (fun kv => pyLower kv.1 == pyLower name)).map (fun kv => kv.2) := by
      simp [getattrFallback, hg]
    rw [hnone, Option.map_eq_none', List.find?_eq_none]
    simp

/-- C9, witness: on the compound [("Damage", 7), ("id", 35)], the lookup of
"damage" falls back case-insensitively to 7, the exact lookup of "id"
returns 35, and "Count" is attribute-not-found. -/
theorem C9_getattr_fallback_witness :
    getattrFallback [("Damage", (7 : Nat)), ("id", 35)] "damage" = some 7 ∧
    getattrFallback [("Damage", (7 : Nat)), ("id", 35)] "id" = some 35 ∧
    getattrFallback [("Damage", (7 : Nat)), ("id", 35)] "Count" = none := by
  have h1 := C9_getattr_fallback [("Damage", (7 : Nat)), ("id", 35)] "damage"
  have h2 := C9_getattr_fallback [("Damage", (7 : Nat)), ("id", 35)] "id"
  have h3 := C9_getattr_fallback [("Damage", (7 : Nat)), ("id", 35)] "Count"
  refine ⟨?_, h2.1 35 (by decide), h3.2.2.mpr (by decide)⟩
  rw [h1.2.1 (by decide)]
  decide

/-- C10: when no entity in any chunk matches, the entity search still emits
its single summary line, reporting the original search string with count 0:
the id is never replaced. -/
theorem C10_no_match_summary (search : String) (chunks : List Chunk)
    (h : ∀ c ∈ chunks, ∀ e ∈ c.Entities, entityMatches e.id search = false) :
    entitySummary search chunks = [(search, 0)] := by
  unfold entitySummary
  rw [entityScan_eq_flat, entityStep_nomatch]
  intro e he
  rw [List.mem_flatMap] at he
  obtain ⟨c, hc, he⟩ := he
  exact h c hc e he

/-- C10, witness: searching "Villager" over a chunk holding only a "Creeper"
and an empty chunk reports ("Villager", 0). -/
theorem C10_no_match_summary_witness :
    entitySummary "Villager" [Chunk.mk [⟨"Creeper"⟩], Chunk.mk []] = [("Villager", 0)] :=
  C10_no_match_summary "Villager" [Chunk.mk [⟨"Creeper"⟩], Chunk.mk []] (by decide)

end Finder
